import Mathlib

/-!
Verification development for the prompt-runner repository.

The Python sources under `src/prompt_runner/` are shallowly embedded below:

* `config.py` — YAML/Jinja2 configuration loading (`build_template_context`,
  `render_template`, `load_yaml`, `load_prompt_config`, `find_prompts_dir`,
  `resolve_prompt_path`);
* `llm/base.py` and `llm/openai_provider.py` — the completion provider
  (`LLMConfig`, `OpenAIProvider.__init__`, `complete`,
  `_build_request_params`, `_parse_response`, `_parse_web_search_results`);
* `delivery/base.py` and `delivery/email.py` — the delivery provider
  (`DeliveryConfig`, `EmailDeliveryProvider.__init__`, `validate_config`).

Python dictionaries are embedded as association lists with unique keys and
insertion-order semantics; Python exceptions become `Except` error values.
External library behaviour that the code relies on (Jinja2 rendering with the
default lenient `Undefined`, `yaml.safe_load`, the `openai` client exception
classes) is embedded from those libraries' documented semantics; the Jinja2
and YAML *parsers* themselves are kept abstract (parameters of the load
environment), while the Jinja2 *evaluation* of a parsed template is embedded
concretely.
-/

namespace PromptRunner

/-- Values of the YAML/JSON-ish data domain that flows through the program:
parsed YAML documents, Jinja2 context entries and request parameters.
`vNull` is Python `None` / YAML `null`. -/
inductive JValue where
  | vNull : JValue
  | vBool (b : Bool) : JValue
  | vInt (n : Int) : JValue
  | vNum (q : Rat) : JValue
  | vStr (s : String) : JValue
  | vList (xs : List JValue) : JValue
  | vDict (xs : List (String × JValue)) : JValue

/-- Association-list embedding of a Python `dict` with `String` keys. -/
abbrev Dict (α : Type) := List (String × α)

/-- Python `d.get(k)` / `d[k]` lookup: first binding of the key wins (a real
Python dict has unique keys, so this is exact). -/
def dictGet? {α : Type} : Dict α → String → Option α
  | [], _ => none
  | (a, b) :: t, k => if a = k then some b else dictGet? t k

/-- Python `k in d`. -/
def dictContains {α : Type} (d : Dict α) (k : String) : Bool :=
  (dictGet? d k).isSome

/-- Python `d[k] = v`: replace the (unique) existing binding in place, else
append at the end — exactly Python insertion-order semantics. -/
def dictSet {α : Type} : Dict α → String → α → Dict α
  | [], k, v => [(k, v)]
  | (a, b) :: t, k, v => if a = k then (k, v) :: t else (a, b) :: dictSet t k v

/-- Python `d.update(e)`: assign every binding of `e` into `d`, in order. -/
def dictUpdate {α : Type} (d e : Dict α) : Dict α :=
  e.foldl (fun acc kv => dictSet acc kv.1 kv.2) d

/-- Python `d.get(k, default)`. -/
def pyGet {α : Type} (d : Dict α) (k : String) (default : α) : α :=
  (dictGet? d k).getD default

theorem dictGet?_dictSet {α : Type} (d : Dict α) (k : String) (v : α)
    (k' : String) :
    dictGet? (dictSet d k v) k' = if k = k' then some v else dictGet? d k' := by
  induction d with
  | nil => by_cases h : k = k' <;> simp [dictSet, dictGet?, h]
  | cons hd tl ih =>
    obtain ⟨a, b⟩ := hd
    by_cases hak : a = k
    · subst hak
      by_cases h : a = k' <;> simp [dictSet, dictGet?, h]
    · by_cases h : a = k'
      · subst h
        have : ¬ k = a := fun hh => hak hh.symm
        simp [dictSet, dictGet?, hak, this]
      · simp [dictSet, dictGet?, hak, h, ih]

theorem dictGet?_append {α : Type} (d e : Dict α) (k : String) :
    dictGet? (d ++ e) k =
      match dictGet? d k with
      | some v => some v
      | none => dictGet? e k := by
  induction d with
  | nil => simp [dictGet?]
  | cons hd tl ih =>
    obtain ⟨a, b⟩ := hd
    by_cases h : a = k <;> simp [dictGet?, h, ih]

theorem dictGet?_dictUpdate_not_mem {α : Type} (e d : Dict α) (k : String)
    (h : k ∉ e.map Prod.fst) :
    dictGet? (dictUpdate d e) k = dictGet? d k := by
  induction e generalizing d with
  | nil => rfl
  | cons hd tl ih =>
    obtain ⟨a, b⟩ := hd
    simp only [List.map_cons, List.mem_cons] at h
    push_neg at h
    have := ih (dictSet d a b) (by exact h.2)
    simp only [dictUpdate, List.foldl_cons] at *
    rw [this, dictGet?_dictSet, if_neg (fun hh : a = k => h.1 hh.symm)]

theorem dictGet?_dictUpdate_mem {α : Type} (e d : Dict α) (k : String) (v : α)
    (hnd : (e.map Prod.fst).Nodup) (hget : dictGet? e k = some v) :
    dictGet? (dictUpdate d e) k = some v := by
  induction e generalizing d with
  | nil => simp [dictGet?] at hget
  | cons hd tl ih =>
    obtain ⟨a, b⟩ := hd
    simp only [List.map_cons, List.nodup_cons] at hnd
    by_cases h : a = k
    · subst h
      simp only [dictGet?, if_pos rfl] at hget
      injection hget with hbv
      subst hbv
      simp only [dictUpdate, List.foldl_cons]
      have := dictGet?_dictUpdate_not_mem tl (dictSet d a b) a hnd.1
      simp only [dictUpdate] at this
      rw [this, dictGet?_dictSet, if_pos rfl]
    · simp only [dictGet?, if_neg h] at hget
      simp only [dictUpdate, List.foldl_cons]
      exact ih (dictSet d a b) hnd.2 hget

/-- Snapshot of `datetime.now()` as the four formatted strings the context
builder derives from it (`config.py` lines 102-107). -/
structure Now where
  dateStr : String
  timeStr : String
  datetimeStr : String
  weekdayStr : String

/-- Mapping embedded for `os.environ`. -/
abbrev EnvVars := Dict String

/-- A parsed YAML mapping (`yaml.safe_load` result restricted to mappings;
`none` at the parser level stands for YAML `null` / an empty document). -/
abbrev YamlMap := Dict JValue

/-- The six built-in context keys of `build_template_context`. -/
def builtinKeys : List String :=
  ["current_date", "current_time", "current_datetime", "current_weekday",
   "env", "profile"]

/-- Embeds `config.py` lines 102-110: the context before profile flattening. -/
def builtinContext (now : Now) (environ : EnvVars)
    (profile_data : Option YamlMap) : Dict JValue :=
  [("current_date", JValue.vStr now.dateStr),
   ("current_time", JValue.vStr now.timeStr),
   ("current_datetime", JValue.vStr now.datetimeStr),
   ("current_weekday", JValue.vStr now.weekdayStr),
   ("env", JValue.vDict (environ.map (fun p => (p.1, JValue.vStr p.2)))),
   ("profile", JValue.vDict (profile_data.getD []))]

/-- One step of the flattening loop of `build_template_context` (`config.py`
lines 113-115): `if key not in context: context[key] = value`; since the key
is absent, the assignment appends. -/
def flattenStep (ctx : Dict JValue) (kv : String × JValue) : Dict JValue :=
  if dictContains ctx kv.1 then ctx else ctx ++ [(kv.1, kv.2)]

/-- Embeds `build_template_context` (`config.py` lines 100-116): the built-in
entries, then each top-level profile key added only when not already
present. -/
def build_template_context (now : Now) (environ : EnvVars)
    (profile_data : Option YamlMap) : Dict JValue :=
  let context := builtinContext now environ profile_data
  match profile_data with
  | none => context
  | some pd => pd.foldl flattenStep context

/-- Jinja2 expression forms needed by the embedded templates: a variable
reference and an attribute access (`foo.bar`). -/
inductive JinjaExpr where
  | var (name : String) : JinjaExpr
  | attr (e : JinjaExpr) (attrName : String) : JinjaExpr

/-- Jinja2 template body after parsing: literal text and `{\x7b expr \x7d}`
output statements. -/
inductive JinjaNode where
  | text (s : String) : JinjaNode
  | output (e : JinjaExpr) : JinjaNode

/-- Jinja2 runtime value: either a defined value or the lenient default
`jinja2.Undefined` object recording the missing name. -/
inductive JinjaVal where
  | defined (v : JValue) : JinjaVal
  | undef (name : String) : JinjaVal

/-- The `jinja2.exceptions.UndefinedError` raised when an operation is applied
to an `Undefined` value. -/
inductive JinjaErr where
  | undefinedErr (name : String) : JinjaErr

/-- Stringification used when a value is printed by an output statement
(Python `str` as Jinja2 applies it; the exact rendering of non-string scalars
is irrelevant to the claims). -/
def jinjaStr : JValue → String
  | JValue.vNull => "None"
  | JValue.vBool b => if b then "True" else "False"
  | JValue.vInt n => toString n
  | JValue.vNum q => toString q
  | JValue.vStr s => s
  | JValue.vList _ => "[...]"
  | JValue.vDict _ => "\x7b...\x7d"

/-- Jinja2 expression evaluation with the default lenient `Undefined`:
looking up an unbound name yields `Undefined` (no error); printing an
`Undefined` yields the empty string; applying an operation such as attribute
access *to* an `Undefined` raises `UndefinedError`; a failed attribute lookup
on a defined value again yields `Undefined`. This is the documented behaviour
of `jinja2.Undefined`, which `Environment(loader=BaseLoader(),
autoescape=False)` at `config.py` line 122 uses. -/
def evalJinjaExpr (ctx : Dict JValue) : JinjaExpr → Except JinjaErr JinjaVal
  | JinjaExpr.var n =>
      match dictGet? ctx n with
      | some v => Except.ok (JinjaVal.defined v)
      | none => Except.ok (JinjaVal.undef n)
  | JinjaExpr.attr e a => do
      match ← evalJinjaExpr ctx e with
      | JinjaVal.undef n => Except.error (JinjaErr.undefinedErr n)
      | JinjaVal.defined (JValue.vDict d) =>
          match dictGet? d a with
          | some v => Except.ok (JinjaVal.defined v)
          | none => Except.ok (JinjaVal.undef a)
      | JinjaVal.defined _ => Except.ok (JinjaVal.undef a)

/-- Renders a parsed template body against a context, concatenating literal
text and printed expression values in order. -/
def renderNodes (ctx : Dict JValue) : List JinjaNode → Except JinjaErr String
  | [] => Except.ok ""
  | JinjaNode.text s :: rest => do
      let tail ← renderNodes ctx rest
      Except.ok (s ++ tail)
  | JinjaNode.output e :: rest => do
      let v ← evalJinjaExpr ctx e
      let tail ← renderNodes ctx rest
      match v with
      | JinjaVal.defined jv => Except.ok (jinjaStr jv ++ tail)
      | JinjaVal.undef _ => Except.ok ("" ++ tail)

/-- The `ConfigError` kinds of `config.py`, one constructor per distinct
message shape, carrying the data interpolated into the message. -/
inductive ConfigError where
  | notFound (path : String) : ConfigError
  | readError (path : String) : ConfigError
  | invalidYaml (path : String) (msg : String) : ConfigError
  | missingField (fieldName : String) (path : String) : ConfigError
  | templateUndefinedVariable (msg : String) : ConfigError
  | templateSyntaxError (msg : String) : ConfigError
  | noPromptsDirectory (promptName : String) : ConfigError
  | notFoundInDir (promptName : String) (dir : String) : ConfigError

/-- The message strings of `config.py` (the program has a single `ConfigError`
class; kinds are distinguished by message shape). -/
def ConfigError.message : ConfigError → String
  | ConfigError.notFound p => "Config file not found: " ++ p
  | ConfigError.readError p => "Cannot read " ++ p
  | ConfigError.invalidYaml p m => "Invalid YAML in " ++ p ++ ": " ++ m
  | ConfigError.missingField f p =>
      "Missing required field \x27" ++ f ++ "\x27 in " ++ p
  | ConfigError.templateUndefinedVariable m =>
      "Template variable not defined: " ++ m
  | ConfigError.templateSyntaxError m => "Template rendering error: " ++ m
  | ConfigError.noPromptsDirectory n =>
      "Cannot find prompt \x27" ++ n ++ "\x27: no prompts directory found"
  | ConfigError.notFoundInDir n d =>
      "Prompt \x27" ++ n ++ "\x27 not found in " ++ d

/-- The Jinja2 front end (`jinja2.Environment.from_string`), kept abstract:
a function from raw template text to a parsed body or a syntax-error message
(`jinja2.TemplateSyntaxError`). -/
structure TemplEngine where
  parse : String → Except String (List JinjaNode)

/-- Embeds `render_template` (`config.py` lines 119-128): parse, render, and
map `UndefinedError` to the undefined-variable `ConfigError` kind and any
other `TemplateError` (here: syntax errors) to the rendering-error kind. -/
def render_template (J : TemplEngine) (template_str : String)
    (ctx : Dict JValue) : Except ConfigError String :=
  match J.parse template_str with
  | Except.error e => Except.error (ConfigError.templateSyntaxError e)
  | Except.ok nodes =>
      match renderNodes ctx nodes with
      | Except.ok s => Except.ok s
      | Except.error (JinjaErr.undefinedErr n) =>
          Except.error (ConfigError.templateUndefinedVariable n)

/-- The YAML front end (`yaml.safe_load`), kept abstract: raw text to either
a `YAMLError` message, or `none` for YAML `null` / an empty document, or a
parsed top-level mapping. -/
structure YamlEngine where
  parseDoc : String → Except String (Option YamlMap)

/-- The filesystem as the program observes it: `Path.exists()`,
`Path.is_dir()`, reading a file (`none` models an `OSError` on `open`/`read`),
and `[Path.cwd()] + list(Path.cwd().parents)`. -/
structure FileSys where
  pathExists : String → Bool
  isDir : String → Bool
  readFile : String → Option String
  cwdChain : List String

/-- Everything ambient that `load_prompt_config` consults. -/
structure LoadEnv where
  jinja : TemplEngine
  yaml : YamlEngine
  now : Now
  environ : EnvVars

/-- Failure of a loading operation: either a raised `ConfigError`, or a
Python exception that the code does not catch (e.g. `AttributeError` when a
section that should be a mapping is a scalar, or an `OSError` escaping
`load_yaml`, which only catches `YAMLError`). -/
inductive LoadFailure where
  | cfgError (e : ConfigError) : LoadFailure
  | pyRaise (exc : String) : LoadFailure

/-- Embeds `load_yaml` (`config.py` lines 72-92): existence check, read
(an `OSError` here is uncaught — only `YAMLError` is), parse, and the
`data if data else {\x7d}` normalisation turning `null`/empty into `{\x7d}`. -/
def load_yaml (Y : YamlEngine) (fs : FileSys) (path : String) :
    Except LoadFailure YamlMap :=
  if fs.pathExists path = false then
    Except.error (LoadFailure.cfgError (ConfigError.notFound path))
  else
    match fs.readFile path with
    | none => Except.error (LoadFailure.pyRaise "OSError")
    | some raw =>
        match Y.parseDoc raw with
        | Except.error e =>
            Except.error (LoadFailure.cfgError (ConfigError.invalidYaml path e))
        | Except.ok d => Except.ok (d.getD [])

/-- Embeds `load_profile` (`config.py` lines 95-97). -/
def load_profile (Y : YamlEngine) (fs : FileSys) (path : String) :
    Except LoadFailure YamlMap :=
  load_yaml Y fs path

/-- LLM settings as `load_prompt_config` builds them (`config.py` lines
194-202); fields keep the raw YAML values since the Python dataclass performs
no coercion, with Python `None` embedded as `vNull`. -/
structure LLMSettings where
  provider : JValue
  model : JValue
  temperature : JValue
  max_tokens : JValue
  enable_web_search : JValue

/-- Delivery settings as `load_prompt_config` builds them (`config.py` lines
204-210). -/
structure DeliverySettings where
  provider : JValue
  recipients : JValue
  subject : JValue

/-- The resolved prompt specification (`config.py` lines 47-63). -/
structure PromptConfig where
  name : JValue
  prompt : JValue
  system_prompt : JValue
  llm : LLMSettings
  delivery : DeliverySettings

/-- Python `data.get(k, {\x7d})` followed by attribute access `.get` on the
result: absent key gives the empty mapping; a present non-mapping value (a
scalar, list or `null`) has no `.get`, so Python raises an uncaught
`AttributeError`. -/
def getSection (data : YamlMap) (k : String) : Except LoadFailure YamlMap :=
  match dictGet? data k with
  | none => Except.ok []
  | some (JValue.vDict m) => Except.ok m
  | some _ => Except.error (LoadFailure.pyRaise "AttributeError")

/-- Splits a character list at `/` separators (the string pieces between
slashes, in order). -/
def splitSlashAux : List Char → List Char → List String
  | [], acc => [String.mk acc.reverse]
  | c :: rest, acc =>
      if c = '/' then String.mk acc.reverse :: splitSlashAux rest []
      else splitSlashAux rest (c :: acc)

/-- Python `pathlib`: the components of a path string (empty and `.`
components dropped). -/
def pathParts (p : String) : List String :=
  (splitSlashAux p.data []).filter (fun s => s ≠ "" ∧ s ≠ ".")

/-- Python `Path(p).name`: the final component (empty when there is none). -/
def pathName (p : String) : String :=
  (pathParts p).getLast?.getD ""

/-- Python `str.rfind(c)` restricted to a found result: the index of the last
occurrence of `c`, if any. -/
def pyRfind (s : String) (c : Char) : Option Nat :=
  match s.data.reverse.findIdx? (fun x => x = c) with
  | none => none
  | some j => some (s.data.length - 1 - j)

/-- Python `Path(p).suffix` (CPython: the slice of `name` from its last dot
`i` when `0 < i < len(name) - 1`, else the empty string). -/
def pathSuffix (p : String) : String :=
  let n := pathName p
  match pyRfind n '.' with
  | some i =>
      if 0 < i ∧ i < n.data.length - 1 then String.mk (n.data.drop i) else ""
  | none => ""

/-- Python `Path(p).stem` (CPython: `name` up to its last dot `i` when
`0 < i < len(name) - 1`, else `name` itself). -/
def pathStem (p : String) : String :=
  let n := pathName p
  match pyRfind n '.' with
  | some i =>
      if 0 < i ∧ i < n.data.length - 1 then String.mk (n.data.take i) else n
  | none => n

/-- Embeds `load_prompt_config` (`config.py` lines 131-221): load the profile
if given, build the context, check existence, read, render, parse, require the
`prompt` key, then assemble the settings with their `.get` defaults and the
name defaulting to the file stem. -/
def load_prompt_config (E : LoadEnv) (fs : FileSys) (path : String)
    (profile_path : Option String) : Except LoadFailure PromptConfig :=
  match (match profile_path with
         | some pp => (load_profile E.yaml fs pp).map some
         | none => Except.ok none) with
  | Except.error e => Except.error e
  | Except.ok profile_data =>
    let context := build_template_context E.now E.environ profile_data
    if fs.pathExists path = false then
      Except.error (LoadFailure.cfgError (ConfigError.notFound path))
    else
      match fs.readFile path with
      | none => Except.error (LoadFailure.cfgError (ConfigError.readError path))
      | some raw_yaml =>
        match render_template E.jinja raw_yaml context with
        | Except.error e => Except.error (LoadFailure.cfgError e)
        | Except.ok rendered_yaml =>
          match E.yaml.parseDoc rendered_yaml with
          | Except.error e =>
              Except.error (LoadFailure.cfgError (ConfigError.invalidYaml path e))
          | Except.ok d0 =>
            let data := d0.getD []
            if dictContains data "prompt" = false then
              Except.error
                (LoadFailure.cfgError (ConfigError.missingField "prompt" path))
            else
              match getSection data "llm" with
              | Except.error e => Except.error e
              | Except.ok llm_data =>
                match getSection data "delivery" with
                | Except.error e => Except.error e
                | Except.ok delivery_data =>
                  Except.ok
                    ⟨pyGet data "name" (JValue.vStr (pathStem path)),
                     pyGet data "prompt" JValue.vNull,
                     pyGet data "system_prompt" JValue.vNull,
                     ⟨pyGet llm_data "provider" (JValue.vStr "openai"),
                      pyGet llm_data "model" (JValue.vStr "gpt-4o"),
                      pyGet llm_data "temperature" (JValue.vNum 1),
                      pyGet llm_data "max_tokens" JValue.vNull,
                      pyGet llm_data "enable_web_search" (JValue.vBool false)⟩,
                     ⟨pyGet delivery_data "provider" (JValue.vStr "email"),
                      pyGet delivery_data "recipients" (JValue.vList []),
                      pyGet delivery_data "subject" JValue.vNull⟩⟩

/-- Recursion of `find_prompts_dir` over `[cwd] + parents`. -/
def findPromptsInChain (fs : FileSys) : List String → Option String
  | [] => none
  | parent :: rest =>
      if fs.isDir (parent ++ "/prompts") then some (parent ++ "/prompts")
      else findPromptsInChain fs rest

/-- Embeds `find_prompts_dir` (`config.py` lines 224-238): the first ancestor
of the working directory containing a directory literally named `prompts`. -/
def find_prompts_dir (fs : FileSys) : Option String :=
  findPromptsInChain fs fs.cwdChain

/-- Embeds `resolve_prompt_path` (`config.py` lines 265-300). -/
def resolve_prompt_path (fs : FileSys) (prompt_name : String)
    (prompts_dir : Option String) : Except ConfigError String :=
  if pathSuffix prompt_name = ".yml" ∨ pathSuffix prompt_name = ".yaml"
      ∨ fs.pathExists prompt_name then
    if fs.pathExists prompt_name = false then
      Except.error (ConfigError.notFound prompt_name)
    else Except.ok prompt_name
  else
    match (match prompts_dir with
           | some d => some d
           | none => find_prompts_dir fs) with
    | none => Except.error (ConfigError.noPromptsDirectory prompt_name)
    | some d =>
        if fs.pathExists (d ++ "/" ++ prompt_name ++ ".yml") then
          Except.ok (d ++ "/" ++ prompt_name ++ ".yml")
        else if fs.pathExists (d ++ "/" ++ prompt_name ++ ".yaml") then
          Except.ok (d ++ "/" ++ prompt_name ++ ".yaml")
        else Except.error (ConfigError.notFoundInDir prompt_name d)

/-- Embeds `LLMConfig` (`llm/base.py` lines 8-24) at its declared field
types; `temperature` is embedded as a rational (Python float values embed
exactly, and the only operation used on it is `!= 1.0`). -/
structure LLMConfig where
  model : String
  temperature : Rat
  max_tokens : Option Int
  enable_web_search : Bool
  extra : Dict JValue

/-- Truthiness of a Python `str | None` (`if system_prompt:` and
`if not self._api_key:`). -/
def truthyStr? : Option String → Bool
  | none => false
  | some s => s ≠ ""

/-- Embeds `OpenAIProvider._build_request_params` lines 115-134: the params
dict before the `extra` update. All keys written here are distinct and fresh,
so each Python dict assignment is an append. -/
def baseParams (config : LLMConfig) (prompt : String)
    (system_prompt : Option String) : Dict JValue :=
  [("model", JValue.vStr config.model), ("input", JValue.vStr prompt)]
  ++ (if truthyStr? system_prompt then
        [("instructions", JValue.vStr (system_prompt.getD ""))]
      else [])
  ++ (if config.temperature ≠ 1 then
        [("temperature", JValue.vNum config.temperature)]
      else [])
  ++ (match config.max_tokens with
      | some n => [("max_output_tokens", JValue.vInt n)]
      | none => [])
  ++ (if config.enable_web_search then
        [("tools", JValue.vList [JValue.vDict [("type", JValue.vStr "web_search")]])]
      else [])

/-- Embeds `OpenAIProvider._build_request_params` (`openai_provider.py` lines
103-139): the conditional fields followed by `params.update(self.config.extra)`. -/
def build_request_params (config : LLMConfig) (prompt : String)
    (system_prompt : Option String) : Dict JValue :=
  dictUpdate (baseParams config prompt system_prompt) config.extra

/-- The `openai` library exceptions `complete` catches, with the data the
handlers read from them. -/
inductive OpenAIException where
  | rateLimitErr (msg : String) : OpenAIException
  | apiConnectionErr (msg : String) : OpenAIException
  | apiErr (msg : String) (status_code : Option Int) : OpenAIException

/-- The error classes of `llm/base.py` flattened into one sum:
`LLMConfigError`, `LLMAPIError` (message, optional status code, optional
provider name) and its subclass `LLMRateLimitError`. -/
inductive LLMErr where
  | configError (msg : String) : LLMErr
  | apiError (msg : String) (status_code : Option Int)
      (provider : Option String) : LLMErr
  | rateLimitError (msg : String) (status_code : Option Int)
      (provider : Option String) : LLMErr

/-- The error kinds a caller can distinguish by `isinstance` checks on the
class hierarchy of `llm/base.py`. -/
inductive LLMErrKind where
  | configErrorKind : LLMErrKind
  | apiErrorKind : LLMErrKind
  | rateLimitErrorKind : LLMErrKind
deriving DecidableEq

/-- Kind discriminator for `LLMErr`. -/
def LLMErr.kind : LLMErr → LLMErrKind
  | LLMErr.configError _ => LLMErrKind.configErrorKind
  | LLMErr.apiError _ _ _ => LLMErrKind.apiErrorKind
  | LLMErr.rateLimitError _ _ _ => LLMErrKind.rateLimitErrorKind

/-- A content block inside a `message` output item of a Responses API reply
(`output_text` blocks carry the text fragments; others are skipped). -/
inductive ContentBlock where
  | outputText (text : String) : ContentBlock
  | otherBlock (typeName : String) : ContentBlock

/-- A raw web-search result entry; each field may be missing
(`getattr(result, field, "")`). -/
structure RawSearchResult where
  title : Option String
  url : Option String
  snippet : Option String

/-- An output item of a Responses API reply, tagged like `item.type`:
`message`, `web_search_call`, `web_search_result` (whose `results` attribute
may be missing), or any other type. -/
inductive OutputItem where
  | message (content : List ContentBlock) : OutputItem
  | webSearchCall : OutputItem
  | webSearchResult (results : Option (List RawSearchResult)) : OutputItem
  | otherItem (typeName : String) : OutputItem

/-- The raw usage section; each counter may be missing
(`getattr(response.usage, field, 0)`). -/
structure RawUsage where
  input_tokens : Option Int
  output_tokens : Option Int
  total_tokens : Option Int

/-- A raw Responses API payload: the ordered output items, a usage section
that may be absent or `None`, and the model name. -/
structure RawResponse where
  output : List OutputItem
  usage : Option RawUsage
  model : String

/-- Embeds `WebSearchResult` (`llm/base.py` lines 27-39). -/
structure WebSearchResult where
  title : String
  url : String
  snippet : String

/-- Embeds `LLMResponse` (`llm/base.py` lines 42-58); `raw_response` is kept
as the raw payload itself. -/
structure LLMResponse where
  content : String
  model : String
  web_search_results : List WebSearchResult
  usage : Dict Int
  raw_response : RawResponse

/-- Embeds `OpenAIProvider._parse_web_search_results` (lines 184-203):
nothing when the `results` attribute is missing, else best-effort field
extraction with empty-string defaults. -/
def parse_web_search_results (results : Option (List RawSearchResult)) :
    List WebSearchResult :=
  match results with
  | none => []
  | some rs =>
      rs.map (fun r => ⟨r.title.getD "", r.url.getD "", r.snippet.getD ""⟩)

/-- One step of the output-item loop of `_parse_response` (lines 154-165),
threading the accumulated text and web-search results. -/
def parseItemStep (acc : String × List WebSearchResult) (item : OutputItem) :
    String × List WebSearchResult :=
  match item with
  | OutputItem.message blocks =>
      (blocks.foldl
        (fun s b =>
          match b with
          | ContentBlock.outputText t => s ++ t
          | ContentBlock.otherBlock _ => s)
        acc.1,
       acc.2)
  | OutputItem.webSearchCall => acc
  | OutputItem.webSearchResult rs => (acc.1, acc.2 ++ parse_web_search_results rs)
  | OutputItem.otherItem _ => acc

/-- Embeds `OpenAIProvider._parse_response` (`openai_provider.py` lines
141-182): the item loop, then the defensively-read usage section. -/
def parse_response (r : RawResponse) : LLMResponse :=
  let cw := r.output.foldl parseItemStep ("", [])
  let usage : Dict Int :=
    match r.usage with
    | none => []
    | some u =>
        [("prompt_tokens", u.input_tokens.getD 0),
         ("completion_tokens", u.output_tokens.getD 0),
         ("total_tokens", u.total_tokens.getD 0)]
  ⟨cw.1, r.model, cw.2, usage, r⟩

/-- Provider state after a successful `OpenAIProvider.__init__`. -/
structure OpenAIProviderState where
  config : LLMConfig
  api_key : String

/-- Python `a or b` on `str | None` operands. -/
def pyOrStr (a b : Option String) : Option String :=
  match a with
  | some s => if s = "" then b else some s
  | none => b

/-- Python `os.environ.get(k)`. -/
def envGet (environ : EnvVars) (k : String) : Option String :=
  dictGet? environ k

/-- The message of the missing-credential `LLMConfigError`. -/
def missingKeyMsg : String :=
  "OpenAI API key not provided. Set OPENAI_API_KEY environment variable or pass api_key parameter."

/-- Embeds `OpenAIProvider.__init__` (`openai_provider.py` lines 31-52):
`api_key or os.environ.get("OPENAI_API_KEY")`, then the falsiness check that
raises `LLMConfigError`. The embedding is a pure function of its arguments —
no network effect is modelled because the constructor performs none (the
`OpenAI(...)` client object is built without any request). -/
def openAIProviderInit (config : LLMConfig) (api_key : Option String)
    (environ : EnvVars) : Except LLMErr OpenAIProviderState :=
  let key := pyOrStr api_key (envGet environ "OPENAI_API_KEY")
  if truthyStr? key = false then
    Except.error (LLMErr.configError missingKeyMsg)
  else Except.ok ⟨config, key.getD ""⟩

/-- Embeds the error translation of `OpenAIProvider.complete`
(`openai_provider.py` lines 75-101). The network call itself is abstracted
into the `callResult` argument: the raw payload the API returned, or the
`openai` exception it raised. -/
def complete (callResult : Except OpenAIException RawResponse) :
    Except LLMErr LLMResponse :=
  match callResult with
  | Except.ok r => Except.ok (parse_response r)
  | Except.error (OpenAIException.rateLimitErr m) =>
      Except.error (LLMErr.rateLimitError ("OpenAI rate limit exceeded: " ++ m)
        (some 429) (some "openai"))
  | Except.error (OpenAIException.apiConnectionErr m) =>
      Except.error (LLMErr.apiError ("Failed to connect to OpenAI API: " ++ m)
        none (some "openai"))
  | Except.error (OpenAIException.apiErr m sc) =>
      Except.error (LLMErr.apiError ("OpenAI API error: " ++ m) sc
        (some "openai"))

/-- The kind of the error of a failed completion, if the completion failed. -/
def completeErrKind? (res : Except LLMErr LLMResponse) : Option LLMErrKind :=
  match res with
  | Except.ok _ => none
  | Except.error e => some e.kind

/-- Embeds `DeliveryConfig` (`delivery/base.py` lines 8-20). -/
structure DeliveryConfig where
  recipients : List String
  subject : Option String
  extra : Dict JValue

/-- Provider state after `EmailDeliveryProvider.__init__`. -/
structure EmailDeliveryProvider where
  sender : String
  app_password : String
  smtp_host : String
  smtp_port : Int
  config : DeliveryConfig

/-- Python `app_password.replace(" ", "")`. -/
def stripSpaces (s : String) : String :=
  String.mk (s.data.filter (fun c => c ≠ ' '))

/-- Embeds `EmailDeliveryProvider.__init__` (`delivery/email.py` lines
42-63): the credential is stored with embedded spaces removed. -/
def emailProviderInit (sender app_password : String) (config : DeliveryConfig)
    (smtp_host : String) (smtp_port : Int) : EmailDeliveryProvider :=
  ⟨sender, stripSpaces app_password, smtp_host, smtp_port, config⟩

/-- The default transport endpoint (`delivery/email.py` lines 17-18). -/
def gmailSmtpHost : String := "smtp.gmail.com"

/-- The default transport port for STARTTLS. -/
def gmailSmtpPort : Int := 587

/-- Embeds `EmailDeliveryProvider.validate_config` (`delivery/email.py` lines
70-78) including the inherited `DeliveryProvider.validate_config`
(`delivery/base.py` lines 84-93). A failure is a raised `ValueError` with the
given message — a type distinct from the `DeliveryError` hierarchy that
`deliver` raises for transport failures. The checks run in order and perform
no side effects. -/
def emailValidateConfig (p : EmailDeliveryProvider) : Except String Unit :=
  if p.config.recipients.isEmpty then
    Except.error "At least one recipient must be specified"
  else if p.sender = "" then
    Except.error "Sender email must be specified"
  else if p.app_password = "" then
    Except.error "App password must be specified"
  else if p.app_password.length ≠ 16 then
    Except.error "App password must be 16 characters"
  else Except.ok ()

theorem dictGet?_append_left {α : Type} (d e : Dict α) (k : String) (v : α)
    (h : dictGet? d k = some v) : dictGet? (d ++ e) k = some v := by
  rw [dictGet?_append, h]

theorem dictGet?_append_right {α : Type} (d e : Dict α) (k : String)
    (h : dictGet? d k = none) : dictGet? (d ++ e) k = dictGet? e k := by
  rw [dictGet?_append, h]

theorem foldl_flatten_preserved (pd : YamlMap) (ctx : Dict JValue)
    (k : String) (h : (dictGet? ctx k).isSome = true) :
    dictGet? (pd.foldl flattenStep ctx) k = dictGet? ctx k := by
  induction pd generalizing ctx with
  | nil => rfl
  | cons hd tl ih =>
    obtain ⟨v, hv⟩ := Option.isSome_iff_exists.mp h
    have hstep : dictGet? (flattenStep ctx hd) k = dictGet? ctx k := by
      unfold flattenStep
      split
      · rfl
      · exact (dictGet?_append_left ctx _ k v hv).trans hv.symm
    have := ih (flattenStep ctx hd) (by rw [hstep]; exact h)
    simpa [List.foldl_cons, hstep] using this

theorem foldl_flatten_new (pd : YamlMap) (ctx : Dict JValue) (k : String)
    (v : JValue) (h : dictGet? ctx k = none) (hv : dictGet? pd k = some v) :
    dictGet? (pd.foldl flattenStep ctx) k = some v := by
  induction pd generalizing ctx with
  | nil => simp [dictGet?] at hv
  | cons hd tl ih =>
    obtain ⟨a, b⟩ := hd
    by_cases hak : a = k
    · subst hak
      simp only [dictGet?, if_pos rfl] at hv
      injection hv with hbv
      subst hbv
      have hctx : flattenStep ctx (a, b) = ctx ++ [(a, b)] := by
        unfold flattenStep
        rw [if_neg]
        simp [dictContains, h]
      have hget : dictGet? (flattenStep ctx (a, b)) a = some b := by
        rw [hctx, dictGet?_append_right ctx _ a h]
        simp [dictGet?]
      have := foldl_flatten_preserved tl (flattenStep ctx (a, b)) a
        (by rw [hget]; rfl)
      simp only [List.foldl_cons]
      rw [this, hget]
    · simp only [dictGet?, if_neg hak] at hv
      have hnone : dictGet? (flattenStep ctx (a, b)) k = none := by
        unfold flattenStep
        split
        · exact h
        · rw [dictGet?_append_right ctx _ k h]
          simp [dictGet?, hak]
      simp only [List.foldl_cons]
      exact ih (flattenStep ctx (a, b)) hnone hv

theorem builtinContext_get_notin (now : Now) (environ : EnvVars)
    (pd : Option YamlMap) (k : String) (hk : k ∉ builtinKeys) :
    dictGet? (builtinContext now environ pd) k = none := by
  simp only [builtinKeys, List.mem_cons, List.not_mem_nil, or_false] at hk
  push_neg at hk
  obtain ⟨h1, h2, h3, h4, h5, h6⟩ := hk
  simp only [builtinContext, dictGet?]
  rw [if_neg (Ne.symm h1), if_neg (Ne.symm h2), if_neg (Ne.symm h3),
    if_neg (Ne.symm h4), if_neg (Ne.symm h5), if_neg (Ne.symm h6)]

/-- C3: every top-level profile key is exposed directly in the context unless
it collides with one of the six built-in keys, in which case the built-in
binding is kept silently; in particular a profile key `current_date` never
replaces the built-in date value. -/
theorem build_template_context_no_shadow (now : Now) (environ : EnvVars)
    (pd : YamlMap) :
    (∀ k, k ∈ builtinKeys →
      dictGet? (build_template_context now environ (some pd)) k =
        dictGet? (builtinContext now environ (some pd)) k)
    ∧ (∀ k v, dictGet? pd k = some v → k ∉ builtinKeys →
      dictGet? (build_template_context now environ (some pd)) k = some v)
    ∧ dictGet? (build_template_context now environ (some pd)) "current_date" =
        some (JValue.vStr now.dateStr) := by
  have hpres : ∀ k, (dictGet? (builtinContext now environ (some pd)) k).isSome = true →
      dictGet? (build_template_context now environ (some pd)) k =
        dictGet? (builtinContext now environ (some pd)) k := by
    intro k hk
    simpa only [build_template_context] using
      foldl_flatten_preserved pd (builtinContext now environ (some pd)) k hk
  refine ⟨?_, ?_, ?_⟩
  · intro k hk
    apply hpres
    simp only [builtinKeys, List.mem_cons, List.not_mem_nil, or_false] at hk
    rcases hk with rfl | rfl | rfl | rfl | rfl | rfl <;> rfl
  · intro k v hv hk
    have hnone := builtinContext_get_notin now environ (some pd) k hk
    simpa only [build_template_context] using
      foldl_flatten_new pd (builtinContext now environ (some pd)) k v hnone hv
  · rw [hpres "current_date" rfl]
    rfl

/-- Concrete invocation instant used by the closed witnesses. -/
def nowEx : Now := ⟨"2026-10-12", "09:00", "2026-10-12T09:00:00", "Monday"⟩

/-- Witness for C3: a profile that tries to shadow `current_date` does not
displace the built-in date, while its innocuous key is exposed directly. -/
theorem build_template_context_no_shadow_witness :
    dictGet? (build_template_context nowEx []
        (some [("current_date", JValue.vStr "1999-01-01"),
               ("city", JValue.vStr "Paris")])) "current_date" =
      some (JValue.vStr "2026-10-12")
    ∧ dictGet? (build_template_context nowEx []
        (some [("current_date", JValue.vStr "1999-01-01"),
               ("city", JValue.vStr "Paris")])) "city" =
      some (JValue.vStr "Paris") := by
  have h := build_template_context_no_shadow nowEx []
    [("current_date", JValue.vStr "1999-01-01"), ("city", JValue.vStr "Paris")]
  refine ⟨h.2.2, h.2.1 "city" (JValue.vStr "Paris") ?_ ?_⟩
  · rfl
  · decide

/-- C9: validation of the email delivery provider raises a `ValueError`
(distinct from the transport `DeliveryError` hierarchy) exactly unless the
recipient list is non-empty, the sender is non-empty, the stored credential
(spaces stripped at construction) is non-empty, and that credential is 16
characters long; and it succeeds (purely, no side effects) when all four
conditions hold. -/
theorem email_validate_config_iff (sender app_password : String)
    (config : DeliveryConfig) (host : String) (port : Int) :
    emailValidateConfig (emailProviderInit sender app_password config host port) =
      Except.ok () ↔
    (config.recipients ≠ [] ∧ sender ≠ "" ∧ stripSpaces app_password ≠ "" ∧
      (stripSpaces app_password).length = 16) := by
  simp only [emailValidateConfig, emailProviderInit]
  split_ifs with h1 h2 h3 h4
  · simp only [List.isEmpty_iff] at h1
    simp [h1]
  · simp [h2]
  · simp [h3]
  · simp [h4]
  · simp only [List.isEmpty_iff] at h1
    simp only [ne_eq, Decidable.not_not] at h4
    simp [h1, h2, h3, h4]

/-- Witness for C9: a well-formed configuration (one recipient, Gmail-style
spaced 16-character app password) validates successfully. -/
theorem email_validate_config_iff_witness :
    emailValidateConfig (emailProviderInit "me@gmail.com" "abcd efgh ijkl mnop"
      ⟨["a@example.com"], none, []⟩ gmailSmtpHost gmailSmtpPort) =
      Except.ok () := by
  exact (email_validate_config_iff "me@gmail.com" "abcd efgh ijkl mnop"
    ⟨["a@example.com"], none, []⟩ gmailSmtpHost gmailSmtpPort).mpr (by decide)

theorem truthyStr?_pyOrStr (a b : Option String) :
    truthyStr? (pyOrStr a b) = (truthyStr? a || truthyStr? b) := by
  cases a with
  | none => rfl
  | some s =>
    by_cases h : s = ""
    · simp [pyOrStr, truthyStr?, h]
    · simp [pyOrStr, truthyStr?, h]

/-- C8: constructing the OpenAI provider fails with `LLMConfigError` exactly
when neither the explicit credential nor the `OPENAI_API_KEY` environment
variable provides a non-empty key, and succeeds otherwise; the constructor is
a pure function of its arguments, so no network call is involved either
way. -/
theorem openai_init_spec (config : LLMConfig) (api_key : Option String)
    (environ : EnvVars) :
    (openAIProviderInit config api_key environ =
        Except.error (LLMErr.configError missingKeyMsg) ↔
      (truthyStr? api_key = false ∧
        truthyStr? (envGet environ "OPENAI_API_KEY") = false))
    ∧ ((∃ st, openAIProviderInit config api_key environ = Except.ok st) ↔
      (truthyStr? api_key = true ∨
        truthyStr? (envGet environ "OPENAI_API_KEY") = true)) := by
  have hkey := truthyStr?_pyOrStr api_key (envGet environ "OPENAI_API_KEY")
  by_cases h : truthyStr? (pyOrStr api_key (envGet environ "OPENAI_API_KEY")) = false
  · rw [h] at hkey
    have h1 : truthyStr? api_key = false := by
      cases hb : truthyStr? api_key <;> simp [hb] at hkey ⊢
    have h2 : truthyStr? (envGet environ "OPENAI_API_KEY") = false := by
      cases hb : truthyStr? (envGet environ "OPENAI_API_KEY") <;>
        simp [hb] at hkey ⊢
    constructor
    · simp [openAIProviderInit, h, h1, h2]
    · simp [openAIProviderInit, h, h1, h2]
  · have htrue : truthyStr? (pyOrStr api_key (envGet environ "OPENAI_API_KEY")) = true := by
      cases hb : truthyStr? (pyOrStr api_key (envGet environ "OPENAI_API_KEY"))
      · exact absurd hb h
      · rfl
    rw [htrue] at hkey
    constructor
    · simp only [openAIProviderInit, htrue]
      constructor
      · intro hcontra
        simp at hcontra
      · intro ⟨hc1, hc2⟩
        rw [hc1, hc2] at hkey
        simp at hkey
    · simp only [openAIProviderInit, htrue]
      constructor
      · intro _
        rcases Bool.or_eq_true_iff.mp hkey.symm with hb | hb
        · exact Or.inl hb
        · exact Or.inr hb
      · intro _
        exact ⟨⟨config, (pyOrStr api_key (envGet environ "OPENAI_API_KEY")).getD ""⟩, by simp⟩

/-- Concrete completion configuration used by the closed witnesses. -/
def cfgEx : LLMConfig := ⟨"gpt-4o", 1, none, false, []⟩

/-- Witness for C8: with no explicit key and an empty environment the
constructor fails with the configuration error; with an explicit key it
succeeds. -/
theorem openai_init_spec_witness :
    openAIProviderInit cfgEx none [] =
      Except.error (LLMErr.configError missingKeyMsg)
    ∧ ∃ st, openAIProviderInit cfgEx (some "sk-test") [] = Except.ok st := by
  constructor
  · exact (openai_init_spec cfgEx none []).1.mpr ⟨rfl, rfl⟩
  · exact (openai_init_spec cfgEx (some "sk-test") []).2.mpr (by decide)

theorem findPromptsInChain_eq_none (fs : FileSys) (chain : List String) :
    findPromptsInChain fs chain = none ↔
      ∀ p ∈ chain, fs.isDir (p ++ "/prompts") = false := by
  induction chain with
  | nil => simp [findPromptsInChain]
  | cons hd tl ih =>
    by_cases h : fs.isDir (hd ++ "/prompts") = true
    · simp [findPromptsInChain, h]
    · have hf : fs.isDir (hd ++ "/prompts") = false := by
        cases hb : fs.isDir (hd ++ "/prompts")
        · rfl
        · exact absurd hb h
      simp [findPromptsInChain, hf, ih]

/-- C4: with auto-discovery of the prompts directory, `resolve_prompt_path`
treats its input as a direct path exactly when it has a `.yml`/`.yaml`
extension or a filesystem entry exists there — returning it unchanged when it
exists and failing with the not-found error when it does not; otherwise it
searches the discovered prompts directory, trying `.yml` then `.yaml`,
failing with the not-found error naming the directory when neither candidate
exists, or with the no-prompts-directory error when no ancestor of the
working directory contains a `prompts` directory. -/
theorem resolve_prompt_path_spec (fs : FileSys) (name : String) :
    ((pathSuffix name = ".yml" ∨ pathSuffix name = ".yaml" ∨
        fs.pathExists name = true) →
      (fs.pathExists name = true →
        resolve_prompt_path fs name none = Except.ok name)
      ∧ (fs.pathExists name = false →
        resolve_prompt_path fs name none =
          Except.error (ConfigError.notFound name)))
    ∧ (¬(pathSuffix name = ".yml" ∨ pathSuffix name = ".yaml") →
        fs.pathExists name = false →
      (find_prompts_dir fs = none →
        resolve_prompt_path fs name none =
          Except.error (ConfigError.noPromptsDirectory name))
      ∧ ∀ d, find_prompts_dir fs = some d →
        (fs.pathExists (d ++ "/" ++ name ++ ".yml") = true →
          resolve_prompt_path fs name none =
            Except.ok (d ++ "/" ++ name ++ ".yml"))
        ∧ (fs.pathExists (d ++ "/" ++ name ++ ".yml") = false →
            fs.pathExists (d ++ "/" ++ name ++ ".yaml") = true →
          resolve_prompt_path fs name none =
            Except.ok (d ++ "/" ++ name ++ ".yaml"))
        ∧ (fs.pathExists (d ++ "/" ++ name ++ ".yml") = false →
            fs.pathExists (d ++ "/" ++ name ++ ".yaml") = false →
          resolve_prompt_path fs name none =
            Except.error (ConfigError.notFoundInDir name d)))
    ∧ (find_prompts_dir fs = none ↔
        ∀ p ∈ fs.cwdChain, fs.isDir (p ++ "/prompts") = false) := by
  refine ⟨?_, ?_, ?_⟩
  · intro hdirect
    constructor
    · intro hex
      have : (pathSuffix name = ".yml" ∨ pathSuffix name = ".yaml" ∨
          fs.pathExists name = true) := Or.inr (Or.inr hex)
      simp [resolve_prompt_path, this, hex]
    · intro hnex
      rcases hdirect with hs | hs | hs
      · simp [resolve_prompt_path, hs, hnex]
      · simp [resolve_prompt_path, hs, hnex]
      · rw [hs] at hnex
        exact absurd hnex (by simp)
  · intro hsuffix hnex
    have hcond : ¬(pathSuffix name = ".yml" ∨ pathSuffix name = ".yaml" ∨
        fs.pathExists name = true) := by
      intro hc
      rcases hc with hc | hc | hc
      · exact hsuffix (Or.inl hc)
      · exact hsuffix (Or.inr hc)
      · rw [hnex] at hc
        exact absurd hc (by simp)
    constructor
    · intro hnone
      simp [resolve_prompt_path, hcond, hnone]
    · intro d hd
      refine ⟨?_, ?_, ?_⟩
      · intro h1
        simp [resolve_prompt_path, hcond, hd, h1]
      · intro h1 h2
        simp [resolve_prompt_path, hcond, hd, h1, h2]
      · intro h1 h2
        simp [resolve_prompt_path, hcond, hd, h1, h2]
  · exact findPromptsInChain_eq_none fs fs.cwdChain

/-- Concrete filesystem used by the C4 witness: working directory `/wd` with
an ancestor chain `["/wd", "/"]`, a directory `/wd/prompts` containing only
`daily.yaml`. -/
def fsEx4 : FileSys :=
  ⟨fun p => p = "/wd/prompts/daily.yaml", fun p => p = "/wd/prompts",
   fun _ => none, ["/wd", "/"]⟩

/-- Witness for C4: the bare name `daily` is not a direct path, the prompts
directory is discovered at `/wd/prompts`, the `.yml` candidate is missing and
the `.yaml` candidate is returned. -/
theorem resolve_prompt_path_spec_witness :
    resolve_prompt_path fsEx4 "daily" none =
      Except.ok ("/wd/prompts" ++ "/" ++ "daily" ++ ".yaml") := by
  have h := (resolve_prompt_path_spec fsEx4 "daily").2.1 (by decide) (by decide)
  exact (h.2 "/wd/prompts" (by decide)).2.1 (by decide) (by decide)

theorem dictGet?_append_none_right {α : Type} (d e : Dict α) (k : String)
    (h : dictGet? e k = none) : dictGet? (d ++ e) k = dictGet? d k := by
  rw [dictGet?_append]
  cases hd : dictGet? d k <;> simp [h]

theorem dictGet?_segment_ne {α : Type} (cond : Prop) [Decidable cond]
    (kk : String) (v : α) (k : String) (h : kk ≠ k) :
    dictGet? (if cond then [(kk, v)] else []) k = none := by
  split <;> simp [dictGet?, h]

theorem dictGet?_segment_self {α : Type} (cond : Prop) [Decidable cond]
    (kk : String) (v : α) :
    dictGet? (if cond then [(kk, v)] else []) kk =
      if cond then some v else none := by
  split <;> simp [dictGet?]

theorem dictGet?_mt_segment (mt : Option Int) (k : String)
    (h : "max_output_tokens" ≠ k) :
    dictGet? (match mt with
              | some n => [("max_output_tokens", JValue.vInt n)]
              | none => []) k = none := by
  cases mt <;> simp [dictGet?, h]

/-- The parameter keys `_build_request_params` itself writes. -/
def reservedParamKeys : List String :=
  ["model", "input", "instructions", "temperature", "max_output_tokens",
   "tools"]

theorem baseParams_get_model (config : LLMConfig) (prompt : String)
    (sp : Option String) :
    dictGet? (baseParams config prompt sp) "model" =
      some (JValue.vStr config.model) := by
  simp only [baseParams]
  rw [dictGet?_append_none_right _ _ _
      (dictGet?_segment_ne _ "tools" _ _ (by decide)),
    dictGet?_append_none_right _ _ _
      (dictGet?_mt_segment config.max_tokens _ (by decide)),
    dictGet?_append_none_right _ _ _
      (dictGet?_segment_ne _ "temperature" _ _ (by decide)),
    dictGet?_append_none_right _ _ _
      (dictGet?_segment_ne _ "instructions" _ _ (by decide))]
  rfl

theorem baseParams_get_input (config : LLMConfig) (prompt : String)
    (sp : Option String) :
    dictGet? (baseParams config prompt sp) "input" =
      some (JValue.vStr prompt) := by
  simp only [baseParams]
  rw [dictGet?_append_none_right _ _ _
      (dictGet?_segment_ne _ "tools" _ _ (by decide)),
    dictGet?_append_none_right _ _ _
      (dictGet?_mt_segment config.max_tokens _ (by decide)),
    dictGet?_append_none_right _ _ _
      (dictGet?_segment_ne _ "temperature" _ _ (by decide)),
    dictGet?_append_none_right _ _ _
      (dictGet?_segment_ne _ "instructions" _ _ (by decide))]
  rfl

theorem baseParams_get_instructions (config : LLMConfig) (prompt : String)
    (sp : Option String) :
    dictGet? (baseParams config prompt sp) "instructions" =
      (if truthyStr? sp then some (JValue.vStr (sp.getD "")) else none) := by
  simp only [baseParams]
  rw [dictGet?_append_none_right _ _ _
      (dictGet?_segment_ne _ "tools" _ _ (by decide)),
    dictGet?_append_none_right _ _ _
      (dictGet?_mt_segment config.max_tokens _ (by decide)),
    dictGet?_append_none_right _ _ _
      (dictGet?_segment_ne _ "temperature" _ _ (by decide)),
    dictGet?_append_right _ _ _ (by rfl)]
  exact dictGet?_segment_self _ "instructions" _

theorem baseParams_get_temperature (config : LLMConfig) (prompt : String)
    (sp : Option String) :
    dictGet? (baseParams config prompt sp) "temperature" =
      (if config.temperature = 1 then none
       else some (JValue.vNum config.temperature)) := by
  simp only [baseParams]
  rw [dictGet?_append_none_right _ _ _
      (dictGet?_segment_ne _ "tools" _ _ (by decide)),
    dictGet?_append_none_right _ _ _
      (dictGet?_mt_segment config.max_tokens _ (by decide)),
    dictGet?_append_right _ _ _ (by
      rw [dictGet?_append_none_right _ _ _
        (dictGet?_segment_ne _ "instructions" _ _ (by decide))]
      rfl)]
  rw [dictGet?_segment_self _ "temperature" _]
  by_cases h : config.temperature = 1 <;> simp [h]

theorem baseParams_get_max_tokens (config : LLMConfig) (prompt : String)
    (sp : Option String) :
    dictGet? (baseParams config prompt sp) "max_output_tokens" =
      config.max_tokens.map JValue.vInt := by
  simp only [baseParams]
  rw [dictGet?_append_none_right _ _ _
      (dictGet?_segment_ne _ "tools" _ _ (by decide)),
    dictGet?_append_right _ _ _ (by
      rw [dictGet?_append_none_right _ _ _
          (dictGet?_segment_ne _ "temperature" _ _ (by decide)),
        dictGet?_append_none_right _ _ _
          (dictGet?_segment_ne _ "instructions" _ _ (by decide))]
      rfl)]
  cases config.max_tokens <;> simp [dictGet?]

theorem baseParams_get_tools (config : LLMConfig) (prompt : String)
    (sp : Option String) :
    dictGet? (baseParams config prompt sp) "tools" =
      (if config.enable_web_search then
        some (JValue.vList [JValue.vDict [("type", JValue.vStr "web_search")]])
       else none) := by
  simp only [baseParams]
  rw [dictGet?_append_right _ _ _ (by
      rw [dictGet?_append_none_right _ _ _
          (dictGet?_mt_segment config.max_tokens _ (by decide)),
        dictGet?_append_none_right _ _ _
          (dictGet?_segment_ne _ "temperature" _ _ (by decide)),
        dictGet?_append_none_right _ _ _
          (dictGet?_segment_ne _ "instructions" _ _ (by decide))]
      rfl)]
  exact dictGet?_segment_self _ "tools" _

theorem extra_key_not_reserved (config : LLMConfig) (k : String)
    (hres : ∀ kv ∈ config.extra, kv.1 ∉ reservedParamKeys)
    (hk : k ∈ reservedParamKeys) : k ∉ config.extra.map Prod.fst := by
  intro hmem
  obtain ⟨kv, hkv, hfst⟩ := List.mem_map.mp hmem
  exact hres kv hkv (hfst ▸ hk)

/-- Concrete configuration refuting C5 as stated: default temperature `1.0`
together with an extra setting named `temperature`. -/
def cfg5cex : LLMConfig := ⟨"gpt-4o", 1, none, false, [("temperature", JValue.vInt 0)]⟩

/-- Counterexample to C5 as stated: with the configured temperature equal to
the default `1.0` but an extra setting named `temperature`, the built request
does contain a `temperature` field (refuting "the temperature field iff the
configured temperature differs from 1.0"); and with a provided-but-empty
system prompt the request contains no `instructions` field (refuting "the
instructions field iff a system prompt is provided"). -/
theorem build_request_params_counterexample :
    cfg5cex.temperature = 1
    ∧ (dictGet? (build_request_params cfg5cex "hi" (some "")) "temperature").isSome = true
    ∧ dictGet? (build_request_params cfg5cex "hi" (some "")) "instructions" = none := by
  exact ⟨rfl, rfl, rfl⟩

/-- C5 (amended): for every prompt, optional system prompt, and `LLMConfig`
whose extra settings use none of the parameter keys the builder itself writes,
the request contains the model and input text, the `instructions` field iff a
non-empty system prompt is provided, the `temperature` field iff the
configured temperature differs from `1.0`, the `max_output_tokens` field iff
`max_tokens` is specified, and the `web_search` tool iff `enable_web_search`
is true; in all cases every key of the extra settings mapping appears
verbatim (the extras are merged last and override the built-in fields on
collision). -/
theorem build_request_params_spec (config : LLMConfig) (prompt : String)
    (sp : Option String)
    (hres : ∀ kv ∈ config.extra, kv.1 ∉ reservedParamKeys)
    (hnd : (config.extra.map Prod.fst).Nodup) :
    dictGet? (build_request_params config prompt sp) "model" =
      some (JValue.vStr config.model)
    ∧ dictGet? (build_request_params config prompt sp) "input" =
      some (JValue.vStr prompt)
    ∧ dictGet? (build_request_params config prompt sp) "instructions" =
      (if truthyStr? sp then some (JValue.vStr (sp.getD "")) else none)
    ∧ dictGet? (build_request_params config prompt sp) "temperature" =
      (if config.temperature = 1 then none
       else some (JValue.vNum config.temperature))
    ∧ dictGet? (build_request_params config prompt sp) "max_output_tokens" =
      config.max_tokens.map JValue.vInt
    ∧ dictGet? (build_request_params config prompt sp) "tools" =
      (if config.enable_web_search then
        some (JValue.vList [JValue.vDict [("type", JValue.vStr "web_search")]])
       else none)
    ∧ ∀ k v, dictGet? config.extra k = some v →
      dictGet? (build_request_params config prompt sp) k = some v := by
  have hskip : ∀ k, k ∈ reservedParamKeys →
      dictGet? (build_request_params config prompt sp) k =
        dictGet? (baseParams config prompt sp) k := by
    intro k hk
    exact dictGet?_dictUpdate_not_mem config.extra _ k
      (extra_key_not_reserved config k hres hk)
  refine ⟨?_, ?_, ?_, ?_, ?_, ?_, ?_⟩
  · rw [hskip "model" (by decide)]
    exact baseParams_get_model config prompt sp
  · rw [hskip "input" (by decide)]
    exact baseParams_get_input config prompt sp
  · rw [hskip "instructions" (by decide)]
    exact baseParams_get_instructions config prompt sp
  · rw [hskip "temperature" (by decide)]
    exact baseParams_get_temperature config prompt sp
  · rw [hskip "max_output_tokens" (by decide)]
    exact baseParams_get_max_tokens config prompt sp
  · rw [hskip "tools" (by decide)]
    exact baseParams_get_tools config prompt sp
  · intro k v hv
    exact dictGet?_dictUpdate_mem config.extra _ k v hnd hv

/-- Concrete configuration exercising every branch of the request builder. -/
def cfg5w : LLMConfig := ⟨"o4-mini", 2, some 100, true, [("seed", JValue.vInt 42)]⟩

/-- Witness for the amended C5: with temperature `2`, a token cap, web search
enabled, a non-empty system prompt and one extra setting, every asserted
field is present with the expected value. -/
theorem build_request_params_spec_witness :
    dictGet? (build_request_params cfg5w "q" (some "be brief")) "temperature" =
      some (JValue.vNum 2)
    ∧ dictGet? (build_request_params cfg5w "q" (some "be brief")) "instructions" =
      some (JValue.vStr "be brief")
    ∧ dictGet? (build_request_params cfg5w "q" (some "be brief")) "seed" =
      some (JValue.vInt 42) := by
  have h := build_request_params_spec cfg5w "q" (some "be brief")
    (by
      intro kv hkv
      cases hkv with
      | head => decide
      | tail _ h2 => exact absurd h2 (List.not_mem_nil kv))
    (by decide)
  refine ⟨?_, ?_, ?_⟩
  · rw [h.2.2.2.1, if_neg (by decide : ¬ cfg5w.temperature = 1)]
    rfl
  · rw [h.2.2.1]
    rfl
  · exact h.2.2.2.2.2.2 "seed" (JValue.vInt 42) rfl

/-- Counterexample to C6 as stated: a connectivity failure and a generic
backend failure are surfaced with the *same* error kind (`LLMAPIError`), so
there is no distinct connection-error kind distinguishable by the caller; the
connectivity failure moreover carries no status code. -/
theorem complete_connection_kind_counterexample :
    completeErrKind?
        (complete (Except.error (OpenAIException.apiConnectionErr "refused"))) =
      completeErrKind?
        (complete (Except.error (OpenAIException.apiErr "boom" (some 500))))
    ∧ completeErrKind?
        (complete (Except.error (OpenAIException.apiConnectionErr "refused"))) =
      some LLMErrKind.apiErrorKind
    ∧ complete (Except.error (OpenAIException.apiConnectionErr "refused")) =
      Except.error (LLMErr.apiError
        ("Failed to connect to OpenAI API: " ++ "refused") none
        (some "openai")) := by
  exact ⟨rfl, rfl, rfl⟩

/-- C6 (amended): a rate-limit failure is surfaced as the distinct
rate-limited kind carrying the provider name and status 429; a connectivity
failure and every other backend-reported failure are both surfaced as the
generic api-error kind carrying the provider name — the connectivity case
with no status code, the generic case with the backend's status code when
available; only rate-limited and api-error are distinguishable as kinds. -/
theorem complete_error_mapping (m : String) (sc : Option Int) :
    complete (Except.error (OpenAIException.rateLimitErr m)) =
      Except.error (LLMErr.rateLimitError ("OpenAI rate limit exceeded: " ++ m)
        (some 429) (some "openai"))
    ∧ complete (Except.error (OpenAIException.apiConnectionErr m)) =
      Except.error (LLMErr.apiError ("Failed to connect to OpenAI API: " ++ m)
        none (some "openai"))
    ∧ complete (Except.error (OpenAIException.apiErr m sc)) =
      Except.error (LLMErr.apiError ("OpenAI API error: " ++ m) sc
        (some "openai"))
    ∧ completeErrKind? (complete (Except.error (OpenAIException.rateLimitErr m))) ≠
      completeErrKind? (complete (Except.error (OpenAIException.apiErr m sc)))
    ∧ completeErrKind? (complete (Except.error (OpenAIException.apiConnectionErr m))) =
      completeErrKind? (complete (Except.error (OpenAIException.apiErr m sc))) := by
  refine ⟨rfl, rfl, rfl, ?_, rfl⟩
  intro h
  simp [complete, completeErrKind?, LLMErr.kind] at h

/-- Witness for the amended C6 at a concrete message and status code. -/
theorem complete_error_mapping_witness :
    complete (Except.error (OpenAIException.rateLimitErr "slow down")) =
      Except.error (LLMErr.rateLimitError
        ("OpenAI rate limit exceeded: " ++ "slow down") (some 429)
        (some "openai")) := by
  exact (complete_error_mapping "slow down" (some 500)).1

/-- Text of an `output_text` content block; other block types contribute
nothing. -/
def blockText : ContentBlock → String
  | ContentBlock.outputText t => t
  | ContentBlock.otherBlock _ => ""

/-- Concatenation of a list of strings in order. -/
def concatTexts : List String → String
  | [] => ""
  | s :: rest => s ++ concatTexts rest

/-- Text contributed by one output item: the concatenated text fragments of a
message item, nothing for any other item type. -/
def itemText : OutputItem → String
  | OutputItem.message bs => concatTexts (bs.map blockText)
  | _ => ""

/-- Citations contributed by one output item. -/
def itemCitations : OutputItem → List WebSearchResult
  | OutputItem.webSearchResult rs => parse_web_search_results rs
  | _ => []

/-- Citations of a list of output items, in order. -/
def citationsOf : List OutputItem → List WebSearchResult
  | [] => []
  | i :: rest => itemCitations i ++ citationsOf rest

theorem foldl_blockText (bs : List ContentBlock) (c : String) :
    bs.foldl
      (fun s b =>
        match b with
        | ContentBlock.outputText t => s ++ t
        | ContentBlock.otherBlock _ => s) c =
      c ++ concatTexts (bs.map blockText) := by
  induction bs generalizing c with
  | nil => simp [concatTexts]
  | cons hd tl ih =>
    cases hd with
    | outputText t =>
      simp only [List.foldl_cons, List.map_cons, blockText, concatTexts]
      rw [ih (c ++ t), String.append_assoc]
    | otherBlock ty =>
      simp only [List.foldl_cons, List.map_cons, blockText, concatTexts]
      rw [ih c]
      simp

theorem foldl_parseItemStep (items : List OutputItem) (c : String)
    (w : List WebSearchResult) :
    items.foldl parseItemStep (c, w) =
      (c ++ concatTexts (items.map itemText), w ++ citationsOf items) := by
  induction items generalizing c w with
  | nil => simp [concatTexts, citationsOf]
  | cons hd tl ih =>
    cases hd with
    | message bs =>
      simp only [List.foldl_cons, parseItemStep, List.map_cons, itemText,
        concatTexts, citationsOf, itemCitations]
      rw [foldl_blockText, ih, String.append_assoc]
      simp
    | webSearchCall =>
      simp only [List.foldl_cons, parseItemStep, List.map_cons, itemText,
        concatTexts, citationsOf, itemCitations]
      rw [ih]
      simp
    | webSearchResult rs =>
      simp only [List.foldl_cons, parseItemStep, List.map_cons, itemText,
        concatTexts, citationsOf, itemCitations]
      rw [ih, List.append_assoc]
      simp
    | otherItem ty =>
      simp only [List.foldl_cons, parseItemStep, List.map_cons, itemText,
        concatTexts, citationsOf, itemCitations]
      rw [ih]
      simp

/-- Payload refuting C7 as stated: zero output items but a populated usage
section. -/
def r7cex : RawResponse := ⟨[], some ⟨some 1, some 2, some 3⟩, "gpt-4o"⟩

/-- Counterexample to C7 as stated: a payload with zero output items whose
usage section is present yields a *non-empty* usage mapping, refuting "given
zero output items it returns a result with ... empty usage mapping". -/
theorem parse_response_counterexample :
    r7cex.output = []
    ∧ (parse_response r7cex).usage =
      [("prompt_tokens", 1), ("completion_tokens", 2), ("total_tokens", 3)]
    ∧ (parse_response r7cex).usage ≠ [] := by
  refine ⟨rfl, rfl, ?_⟩
  intro h
  simp [parse_response, r7cex] at h

/-- C7 (amended): response parsing is total over raw payloads: the content is
the in-order concatenation of every text fragment inside message-type items
(items of other types, including web-search-call markers, contribute
nothing); the citations are those of the web-search-result items in order;
zero output items yield empty content and citations; and the usage mapping is
empty whenever the payload lacks a usage section — a missing usage section is
never an error. -/
theorem parse_response_spec (r : RawResponse) :
    (parse_response r).content = concatTexts (r.output.map itemText)
    ∧ (parse_response r).web_search_results = citationsOf r.output
    ∧ (r.output = [] →
      (parse_response r).content = ""
      ∧ (parse_response r).web_search_results = [])
    ∧ (r.usage = none → (parse_response r).usage = [])
    ∧ (parse_response r).model = r.model := by
  have hfold := foldl_parseItemStep r.output "" []
  have hcontent : (parse_response r).content = concatTexts (r.output.map itemText) := by
    simp only [parse_response, hfold]
    simp
  have hcit : (parse_response r).web_search_results = citationsOf r.output := by
    simp only [parse_response, hfold]
    simp
  refine ⟨hcontent, hcit, ?_, ?_, ?_⟩
  · intro hout
    constructor
    · rw [hcontent, hout]
      rfl
    · rw [hcit, hout]
      rfl
  · intro husage
    simp [parse_response, husage]
  · rfl

/-- Witness for the amended C7: the empty payload with no usage section
parses to empty content, citations and usage. -/
theorem parse_response_spec_witness :
    (parse_response ⟨[], none, "gpt-4o"⟩).content = ""
    ∧ (parse_response ⟨[], none, "gpt-4o"⟩).web_search_results = []
    ∧ (parse_response ⟨[], none, "gpt-4o"⟩).usage = [] := by
  have h := parse_response_spec ⟨[], none, "gpt-4o"⟩
  exact ⟨(h.2.2.1 rfl).1, (h.2.2.1 rfl).2, h.2.2.2.1 rfl⟩

/-- Jinja front end for the C1 counterexample: parses the single template
`{\x7b missing \x7d}` to its body, one output statement printing the variable
`missing`. -/
def jinja1cex : TemplEngine :=
  ⟨fun s =>
    if s = "\x7b\x7b missing \x7d\x7d" then
      Except.ok [JinjaNode.output (JinjaExpr.var "missing")]
    else Except.error "unused"⟩

/-- Counterexample to C1 as stated: the template `{\x7b missing \x7d}`
references a variable with no binding in the context, yet `render_template`
succeeds with empty output — Jinja2's default lenient `Undefined` prints as
the empty string — instead of failing with the template-undefined-variable
error. -/
theorem render_template_counterexample :
    dictGet? (build_template_context nowEx [] none) "missing" = none
    ∧ render_template jinja1cex "\x7b\x7b missing \x7d\x7d"
        (build_template_context nowEx [] none) = Except.ok "" := by
  exact ⟨rfl, rfl⟩

/-- C1 (amended): rendering fails with the template-undefined-variable kind
of `ConfigError` when the template applies an operation — here attribute
access — to an unbound name, while a bare interpolation of an unbound name
renders as empty text and succeeds; and whenever rendering fails,
`load_prompt_config` propagates that `ConfigError` and returns no partial
`PromptConfig`. -/
theorem render_template_undefined_spec :
    (∀ (ctx : Dict JValue) (n a : String) (J : TemplEngine) (s : String),
      dictGet? ctx n = none →
      J.parse s =
        Except.ok [JinjaNode.output (JinjaExpr.attr (JinjaExpr.var n) a)] →
      render_template J s ctx =
        Except.error (ConfigError.templateUndefinedVariable n))
    ∧ (∀ (ctx : Dict JValue) (n : String) (J : TemplEngine) (s : String),
      dictGet? ctx n = none →
      J.parse s = Except.ok [JinjaNode.output (JinjaExpr.var n)] →
      render_template J s ctx = Except.ok "")
    ∧ (∀ (E : LoadEnv) (fs : FileSys) (path raw : String) (ce : ConfigError),
      fs.pathExists path = true →
      fs.readFile path = some raw →
      render_template E.jinja raw
        (build_template_context E.now E.environ none) = Except.error ce →
      load_prompt_config E fs path none =
        Except.error (LoadFailure.cfgError ce)) := by
  refine ⟨?_, ?_, ?_⟩
  · intro ctx n a J s hnone hparse
    simp only [render_template, hparse, renderNodes, evalJinjaExpr, hnone]
    rfl
  · intro ctx n J s hnone hparse
    simp only [render_template, hparse, renderNodes, evalJinjaExpr, hnone]
    rfl
  · intro E fs path raw ce hex hread hrender
    simp [load_prompt_config, hex, hread, hrender]

/-- Jinja front end for the C1 witness: the template body applies an
attribute access to the unbound name `missing`. -/
def jinja1w : TemplEngine :=
  ⟨fun _ =>
    Except.ok [JinjaNode.output (JinjaExpr.attr (JinjaExpr.var "missing") "x")]⟩

/-- Witness for the amended C1: attribute access on an unbound name fails
with the template-undefined-variable error. -/
theorem render_template_undefined_spec_witness :
    render_template jinja1w "t" (build_template_context nowEx [] none) =
      Except.error (ConfigError.templateUndefinedVariable "missing") := by
  exact render_template_undefined_spec.1 (build_template_context nowEx [] none)
    "missing" "x" jinja1w "t" rfl rfl

/-- Jinja front end that parses every document as literal text (a YAML
document containing no template constructs). -/
def jinjaId : TemplEngine := ⟨fun s => Except.ok [JinjaNode.text s]⟩

/-- YAML front end for the C2 counterexample: the document `prompt: \x27\x27`
parses to a mapping whose `prompt` key holds the empty string; anything else
parses to the null document. -/
def yaml2cex : YamlEngine :=
  ⟨fun s =>
    if s = "prompt: \x27\x27" then
      Except.ok (some [("prompt", JValue.vStr "")])
    else Except.ok none⟩

/-- Filesystem for the C2 counterexample: the single file `cfg.yml` whose
text is `prompt: \x27\x27`. -/
def fs2cex : FileSys :=
  ⟨fun p => p = "cfg.yml", fun _ => false,
   fun p => if p = "cfg.yml" then some "prompt: \x27\x27" else none, []⟩

/-- Load environment for the C2 counterexample. -/
def env2cex : LoadEnv := ⟨jinjaId, yaml2cex, nowEx, []⟩

/-- Counterexample to C2 as stated: a configuration whose rendered text has a
present but *empty* `prompt` field — so it lacks a present-and-non-empty
prompt — is accepted: `load_prompt_config` returns a `PromptConfig` whose
prompt is the empty string instead of failing with the missing-field
error. -/
theorem load_prompt_config_counterexample :
    load_prompt_config env2cex fs2cex "cfg.yml" none =
      Except.ok
        ⟨JValue.vStr "cfg", JValue.vStr "", JValue.vNull,
         ⟨JValue.vStr "openai", JValue.vStr "gpt-4o", JValue.vNum 1,
          JValue.vNull, JValue.vBool false⟩,
         ⟨JValue.vStr "email", JValue.vList [], JValue.vNull⟩⟩ := by
  rfl

/-- C2 (amended): `load_prompt_config` fails with the missing-field error
naming the field `prompt` and the offending file exactly when the rendered
document lacks the *key* `prompt`; when the key is present — even with an
empty value — any returned `PromptConfig` carries that value as its prompt
unchanged. -/
theorem load_prompt_config_missing_prompt (E : LoadEnv) (fs : FileSys)
    (path raw s : String) (d : Option YamlMap)
    (hex : fs.pathExists path = true)
    (hread : fs.readFile path = some raw)
    (hrender : render_template E.jinja raw
      (build_template_context E.now E.environ none) = Except.ok s)
    (hparse : E.yaml.parseDoc s = Except.ok d) :
    (dictContains (d.getD []) "prompt" = false →
      load_prompt_config E fs path none =
        Except.error
          (LoadFailure.cfgError (ConfigError.missingField "prompt" path)))
    ∧ (∀ res, load_prompt_config E fs path none = Except.ok res →
      dictContains (d.getD []) "prompt" = true
      ∧ res.prompt = pyGet (d.getD []) "prompt" JValue.vNull) := by
  constructor
  · intro habsent
    simp [load_prompt_config, hex, hread, hrender, hparse, habsent]
  · intro res hres
    simp only [load_prompt_config, hex, hread, hrender, hparse] at hres
    by_cases hcont : dictContains (d.getD []) "prompt" = false
    · simp [hcont] at hres
    · have hcont' : dictContains (d.getD []) "prompt" = true := by
        cases hb : dictContains (d.getD []) "prompt"
        · exact absurd hb hcont
        · rfl
      refine ⟨hcont', ?_⟩
      simp only [hcont', Bool.true_eq_false, if_false] at hres
      cases hllm : getSection (d.getD []) "llm" with
      | error e =>
        rw [hllm] at hres
        simp at hres
      | ok llm_data =>
        rw [hllm] at hres
        cases hdel : getSection (d.getD []) "delivery" with
        | error e =>
          rw [hdel] at hres
          simp at hres
        | ok delivery_data =>
          rw [hdel] at hres
          simp only [Except.ok.injEq] at hres
          rw [← hres]

/-- YAML front end for the C2 witness: the document `name: x` parses to a
mapping without a `prompt` key. -/
def yaml2w : YamlEngine :=
  ⟨fun s =>
    if s = "name: x" then Except.ok (some [("name", JValue.vStr "x")])
    else Except.ok none⟩

/-- Filesystem for the C2 witness: the single file `noprompt.yml` whose text
is `name: x`. -/
def fs2w : FileSys :=
  ⟨fun p => p = "noprompt.yml", fun _ => false,
   fun p => if p = "noprompt.yml" then some "name: x" else none, []⟩

/-- Load environment for the C2 witness. -/
def env2w : LoadEnv := ⟨jinjaId, yaml2w, nowEx, []⟩

/-- Witness for the amended C2: a document without the `prompt` key fails
with the missing-field error naming `prompt` and the file. -/
theorem load_prompt_config_missing_prompt_witness :
    load_prompt_config env2w fs2w "noprompt.yml" none =
      Except.error
        (LoadFailure.cfgError
          (ConfigError.missingField "prompt" "noprompt.yml")) := by
  exact (load_prompt_config_missing_prompt env2w fs2w "noprompt.yml" "name: x"
    "name: x" (some [("name", JValue.vStr "x")]) rfl rfl rfl rfl).1 rfl

/-- C10: a file whose text parses to YAML `null` (or an empty document) is
treated as an empty mapping, not a parse error: loading it as a profile
succeeds with the empty mapping, and loading it as a configuration fails with
the missing-field error for `prompt` — never with a parse error. -/
theorem empty_document_as_empty_mapping :
    (∀ (Y : YamlEngine) (fs : FileSys) (path raw : String),
      fs.pathExists path = true →
      fs.readFile path = some raw →
      Y.parseDoc raw = Except.ok none →
      load_yaml Y fs path = Except.ok [])
    ∧ (∀ (E : LoadEnv) (fs : FileSys) (path raw s : String),
      fs.pathExists path = true →
      fs.readFile path = some raw →
      render_template E.jinja raw
        (build_template_context E.now E.environ none) = Except.ok s →
      E.yaml.parseDoc s = Except.ok none →
      load_prompt_config E fs path none =
        Except.error
          (LoadFailure.cfgError (ConfigError.missingField "prompt" path))) := by
  constructor
  · intro Y fs path raw hex hread hparse
    simp [load_yaml, hex, hread, hparse]
  · intro E fs path raw s hex hread hrender hparse
    simp [load_prompt_config, hex, hread, hrender, hparse, dictContains,
      dictGet?]

/-- YAML front end for the C10 witness: every document parses to `null`. -/
def yamlNullW : YamlEngine := ⟨fun _ => Except.ok none⟩

/-- Filesystem for the C10 witness: the single, empty file `empty.yml`. -/
def fs10w : FileSys :=
  ⟨fun p => p = "empty.yml", fun _ => false,
   fun p => if p = "empty.yml" then some "" else none, []⟩

/-- Load environment for the C10 witness. -/
def env10w : LoadEnv := ⟨jinjaId, yamlNullW, nowEx, []⟩

/-- Witness for C10: the empty YAML file loads as an empty profile mapping,
and as a configuration fails with missing-field for `prompt`. -/
theorem empty_document_as_empty_mapping_witness :
    load_yaml yamlNullW fs10w "empty.yml" = Except.ok []
    ∧ load_prompt_config env10w fs10w "empty.yml" none =
      Except.error
        (LoadFailure.cfgError (ConfigError.missingField "prompt" "empty.yml")) := by
  constructor
  · exact empty_document_as_empty_mapping.1 yamlNullW fs10w "empty.yml" ""
      rfl rfl rfl
  · exact empty_document_as_empty_mapping.2 env10w fs10w "empty.yml" "" ""
      rfl rfl rfl rfl

end PromptRunner
